import Mathlib

/-!
Shallow embedding of the output-profile module of the emmet repository
(file src/javascript/profile.js). The module keeps a registry of named
output profiles and exposes string helpers derived from profile settings.
All definitions below are translated directly from that source file; the
source line numbers are quoted in the doc comments.
-/

namespace Profile

/-- JavaScript primitive values that can appear in a profile option field or
be passed as a case value. Numbers are modelled as integers (the module never
computes with them; `inline_break` defaults to 3 and is only stored). -/
inductive JSVal where
  | vstr (s : String)
  | vbool (b : Bool)
  | vnum (n : Int)
  | vundef
  | vnull
deriving DecidableEq, Repr

/-- JavaScript truthiness for the modelled primitive values: empty string,
false, 0, undefined and null are falsy. -/
def truthy : JSVal → Bool
  | .vstr s => s ≠ ""
  | .vbool b => b
  | .vnum n => n ≠ 0
  | .vundef => false
  | .vnull => false

/-- The JavaScript `String(v)` conversion on the modelled primitives. -/
def jsString : JSVal → String
  | .vstr s => s
  | .vbool true => "true"
  | .vbool false => "false"
  | .vnum n => toString n
  | .vundef => "undefined"
  | .vnull => "null"

/-- Model of JavaScript `String.prototype.toLowerCase` (ASCII fragment, which
covers every name and case value the module uses), written with a structural
`List.map` so that proofs can evaluate it. -/
def jsToLowerCase (s : String) : String :=
  ⟨s.data.map Char.toLower⟩

/-- Model of JavaScript `String.prototype.toUpperCase` (ASCII fragment). -/
def jsToUpperCase (s : String) : String :=
  ⟨s.data.map Char.toUpper⟩

/-- JavaScript loose equality `v == lit` where `lit` is one of the non-empty,
non-numeric string literals used by the source (such as "single", "xhtml").
A boolean, number, null or undefined never loose-equals such a literal, so
only the string case can match. -/
def looseEqStr (v : JSVal) (lit : String) : Bool :=
  match v with
  | .vstr t => decide (t = lit)
  | _ => false

/-- The normalisation `String(caseValue || "").toLowerCase()` performed at
line 103 of profile.js before the switch. -/
def normalizedCaseValue (caseValue : JSVal) : String :=
  jsToLowerCase (jsString (if truthy caseValue then caseValue else .vstr ""))

/-- `stringCase(str, caseValue)`, profile.js lines 102 to 111: switch on the
normalised case value; "lower" lowercases, "upper" uppercases, anything else
returns the string unchanged. -/
def stringCase (str : String) (caseValue : JSVal) : String :=
  let cv := normalizedCaseValue caseValue
  if cv = "lower" then jsToLowerCase str
  else if cv = "upper" then jsToUpperCase str
  else str

/-- An options record passed by a caller: each of the nine profile fields may
be absent (`none`) or present with a primitive value (a present field whose
value is the JavaScript `undefined` is `some .vundef`). -/
structure Options where
  tag_case : Option JSVal := none
  attr_case : Option JSVal := none
  attr_quotes : Option JSVal := none
  tag_nl : Option JSVal := none
  place_cursor : Option JSVal := none
  indent : Option JSVal := none
  inline_break : Option JSVal := none
  self_closing_tag : Option JSVal := none
  filters : Option JSVal := none
deriving DecidableEq, Repr

/-- A constructed OutputProfile: all nine fields resolved to a value. -/
structure OutputProfile where
  tag_case : JSVal
  attr_case : JSVal
  attr_quotes : JSVal
  tag_nl : JSVal
  place_cursor : JSVal
  indent : JSVal
  inline_break : JSVal
  self_closing_tag : JSVal
  filters : JSVal
deriving DecidableEq, Repr

/-- The `defaultProfile` record, profile.js lines 10 to 32. -/
def defaultProfile : OutputProfile :=
  { tag_case := .vstr "lower"
    attr_case := .vstr "lower"
    attr_quotes := .vstr "double"
    tag_nl := .vstr "decide"
    place_cursor := .vbool true
    indent := .vbool true
    inline_break := .vnum 3
    self_closing_tag := .vstr "xhtml"
    filters := .vstr "" }

/-- The OutputProfile constructor, profile.js lines 39 to 41:
`_.extend(this, defaultProfile, options)` — every field present in the
options wins over the default, an absent field keeps the default. -/
def mkOutputProfile (o : Options) : OutputProfile :=
  { tag_case := o.tag_case.getD defaultProfile.tag_case
    attr_case := o.attr_case.getD defaultProfile.attr_case
    attr_quotes := o.attr_quotes.getD defaultProfile.attr_quotes
    tag_nl := o.tag_nl.getD defaultProfile.tag_nl
    place_cursor := o.place_cursor.getD defaultProfile.place_cursor
    indent := o.indent.getD defaultProfile.indent
    inline_break := o.inline_break.getD defaultProfile.inline_break
    self_closing_tag := o.self_closing_tag.getD defaultProfile.self_closing_tag
    filters := o.filters.getD defaultProfile.filters }

/-- `tagName(name)`, profile.js lines 49 to 51. -/
def OutputProfile.tagName (p : OutputProfile) (name : String) : String :=
  stringCase name p.tag_case

/-- `attributeName(name)`, profile.js lines 58 to 60. -/
def OutputProfile.attributeName (p : OutputProfile) (name : String) : String :=
  stringCase name p.attr_case

/-- `attributeQuote()`, profile.js lines 66 to 68:
single quote when `attr_quotes == "single"` (loose equality), double quote
otherwise. -/
def OutputProfile.attributeQuote (p : OutputProfile) : String :=
  if looseEqStr p.attr_quotes "single" then "\x27" else "\""

/-- `selfClosing()`, profile.js lines 75 to 83: " /" when
`self_closing_tag == "xhtml"` (loose equality), "/" when it is strictly
boolean true, empty string otherwise. -/
def OutputProfile.selfClosing (p : OutputProfile) : String :=
  if looseEqStr p.self_closing_tag "xhtml" then " /"
  else if p.self_closing_tag = .vbool true then "/"
  else ""

/-- `cursor()`, profile.js lines 89 to 91: the caret placeholder provided by
the external utils collaborator when `place_cursor` is truthy, else the empty
string. The placeholder is a parameter of the model. -/
def OutputProfile.cursor (p : OutputProfile) (caretPlaceholder : String) : String :=
  if truthy p.place_cursor then caretPlaceholder else ""

/-- Deprecated free function `quote(param)`, profile.js lines 195 to 198
(the deprecation log line is a side effect outside the value model). -/
def quote (param : JSVal) : String :=
  if looseEqStr param "single" then "\x27" else "\""

/-- Deprecated free function `selfClosing(param)`, profile.js lines 206 to
215 (named Legacy here to keep it apart from the method of the same name). -/
def selfClosingLegacy (param : JSVal) : String :=
  if looseEqStr param "xhtml" then " /"
  else if param = .vbool true then "/"
  else ""

/-- A registry entry. The `id` field models JavaScript object identity:
every `new OutputProfile(...)` allocation yields a distinct object, and two
lookups return "the same instance" exactly when they return entries with the
same id. -/
structure Entry where
  id : Nat
  profile : OutputProfile
deriving DecidableEq, Repr

/-- Own-property read `obj[k]` on the `profiles` object (a string-keyed
record with pairwise distinct keys, modelled as an association list). -/
def objGet (k : String) : List (String × Entry) → Option Entry
  | [] => none
  | (k2, v) :: rest => if k2 = k then some v else objGet k rest

/-- Property write `obj[k] = v`: overwrite the entry when the key is already
present, append it otherwise. -/
def objSet (k : String) (v : Entry) : List (String × Entry) → List (String × Entry)
  | [] => [(k, v)]
  | (k2, v2) :: rest => if k2 = k then (k, v) :: rest else (k2, v2) :: objSet k v rest

/-- Property removal `delete obj[k]`. -/
def objDelete (k : String) : List (String × Entry) → List (String × Entry)
  | [] => []
  | (k2, v2) :: rest => if k2 = k then rest else (k2, v2) :: objDelete k rest

/-- The module state: the `profiles` dictionary (profile.js line 8) plus the
allocation counter backing the object-identity model. -/
structure PState where
  profiles : List (String × Entry)
  nextId : Nat
deriving DecidableEq, Repr

/-- `createProfile(name, options)`, profile.js lines 118 to 120: build a new
OutputProfile from the options and store it under the lowercased name,
returning the stored instance. -/
def createProfile (name : String) (options : Options) (st : PState) : Entry × PState :=
  let e : Entry := ⟨st.nextId, mkOutputProfile options⟩
  (e, ⟨objSet (jsToLowerCase name) e st.profiles, st.nextId + 1⟩)

/-- The two-argument form of the exported `create`, profile.js lines 136 to
138: with two arguments it is exactly `createProfile`. -/
def create2 (name : String) (options : Options) (st : PState) : Entry × PState :=
  createProfile name options st

/-- Module bootstrap, profile.js lines 123 to 126: the four built-in
profiles registered at load time (`createProfile("xhtml")` passes no options,
which the constructor treats as an empty record). -/
def initState : PState :=
  let st1 := (createProfile "xhtml" {} ⟨[], 0⟩).2
  let st2 := (createProfile "html" { self_closing_tag := some (.vbool false) } st1).2
  let st3 := (createProfile "xml" { self_closing_tag := some (.vbool true),
                                    tag_nl := some (.vbool true) } st2).2
  (createProfile "plain" { tag_nl := some (.vbool false), indent := some (.vbool false),
                           place_cursor := some (.vbool false) } st3).2

/-- A caller-supplied options object together with its JavaScript object
identity (see `Entry.id`). -/
structure OptionsObj where
  id : Nat
  fields : Options
deriving DecidableEq, Repr

/-- One field step of underscore `_.defaults` (version 1.3.x, as bundled by
the repository): the existing value is kept unless it is absent, undefined or
null (`obj[prop] == null`), in which case the default is written. -/
def defaultsField (cur : Option JSVal) (d : JSVal) : JSVal :=
  match cur with
  | some v => if v = .vundef || v = .vnull then d else v
  | none => d

/-- The one-argument form of the exported `create`, profile.js lines 139 to
141: `_.defaults(name || {}, defaultProfile)` fills the missing fields of the
given options object in place and returns that same object (same identity,
no copy); the registry is not touched and no OutputProfile is constructed. -/
def create1 (o : OptionsObj) : OptionsObj :=
  ⟨o.id,
   { tag_case := some (defaultsField o.fields.tag_case defaultProfile.tag_case)
     attr_case := some (defaultsField o.fields.attr_case defaultProfile.attr_case)
     attr_quotes := some (defaultsField o.fields.attr_quotes defaultProfile.attr_quotes)
     tag_nl := some (defaultsField o.fields.tag_nl defaultProfile.tag_nl)
     place_cursor := some (defaultsField o.fields.place_cursor defaultProfile.place_cursor)
     indent := some (defaultsField o.fields.indent defaultProfile.indent)
     inline_break := some (defaultsField o.fields.inline_break defaultProfile.inline_break)
     self_closing_tag := some (defaultsField o.fields.self_closing_tag defaultProfile.self_closing_tag)
     filters := some (defaultsField o.fields.filters defaultProfile.filters) }⟩

/-- The `name` argument of `get`: a string, an options object, or a missing
argument. -/
inductive NameArg where
  | str (s : String)
  | obj (o : OptionsObj)
  | undef
deriving DecidableEq, Repr

/-- What `get` evaluates to when it does not throw: a registered profile
instance, the in-place-completed options record of the inline path, or the
JavaScript `undefined` read when even the plain profile is absent. -/
inductive GetResult where
  | registered (e : Entry)
  | inlineRec (o : OptionsObj)
  | undefResult
deriving DecidableEq, Repr

/-- Whether a `get` result carries the accessor methods `tagName`,
`attributeName`, `attributeQuote`, `selfClosing` and `cursor`. In the source
those methods live on `OutputProfile.prototype` (profile.js lines 43 to 92),
so exactly the objects built by `new OutputProfile` — the registered
entries — have them; the record returned by the one-argument `create` path
is a plain object produced by `_.defaults` and has none of them. -/
def hasAccessorMethods : GetResult → Bool
  | .registered _ => true
  | .inlineRec _ => false
  | .undefResult => false

/-- The read `profiles["plain"]` used as universal fallback, profile.js line
165: the stored entry, or the JavaScript `undefined` when absent. -/
def plainResult (st : PState) : Except String GetResult :=
  match objGet "plain" st.profiles with
  | some e => .ok (.registered e)
  | none => .ok .undefResult

/-- The syntax-override step of `get`, profile.js lines 153 to 159: when a
truthy syntax is given and the name is a string, consult the external
resources collaborator (`getSubset(syntax, "profile")`, modelled as the
function `res`) and substitute a truthy result for the name. -/
def resolveSynOverride (res : String → Option String) (name : NameArg)
    (syn : Option String) : NameArg :=
  match syn, name with
  | some sy, .str s =>
      if sy = "" then .str s
      else
        match res sy with
        | some p => if p = "" then .str s else .str p
        | none => .str s
  | _, n => n

/-- `get(name, syntax)`, profile.js lines 152 to 166. After the optional
syntax override: a string name found (lowercased) in the registry returns the
stored instance; otherwise the line
`return name && (tag_case in name) ? this.create(name) : profiles[plain]`
runs — a falsy name (empty string or missing) falls back to the plain
profile, an options object takes the inline one-argument `create` path when
it has a `tag_case` property and falls back to plain otherwise, and a truthy
unregistered STRING name makes the `in` operator throw a TypeError, because
`in` applied to a primitive string is a type error in JavaScript. The state
is returned unchanged in every branch: `get` never writes the registry. -/
def get (res : String → Option String) (name : NameArg) (syn : Option String)
    (st : PState) : Except String GetResult × PState :=
  match resolveSynOverride res name syn with
  | .str s =>
      match objGet (jsToLowerCase s) st.profiles with
      | some e => (.ok (.registered e), st)
      | none =>
          if s = "" then (plainResult st, st)
          else (.error "TypeError", st)
  | .obj o =>
      if (o.fields.tag_case).isSome then (.ok (.inlineRec (create1 o)), st)
      else (plainResult st, st)
  | .undef => (plainResult st, st)

/-- `remove(name)`, profile.js lines 172 to 176: lowercase the name (a
missing name is treated as the empty string by `name || ""`) and delete the
entry when present; absent names are a no-op. -/
def remove (name : Option String) (st : PState) : PState :=
  let n := jsToLowerCase (name.getD "")
  match objGet n st.profiles with
  | some _ => { st with profiles := objDelete n st.profiles }
  | none => st

/-- An empty resources collaborator: no syntax-scoped profile override. -/
def noResources : String → Option String := fun _ => none

/-- The nine profile fields, used to state field-indexed properties. -/
inductive PField where
  | tagCase
  | attrCase
  | attrQuotes
  | tagNl
  | placeCursor
  | indentField
  | inlineBreak
  | selfClosingTag
  | filtersField
deriving DecidableEq, Repr

/-- Field access on an options record. -/
def Options.getF (o : Options) : PField → Option JSVal
  | .tagCase => o.tag_case
  | .attrCase => o.attr_case
  | .attrQuotes => o.attr_quotes
  | .tagNl => o.tag_nl
  | .placeCursor => o.place_cursor
  | .indentField => o.indent
  | .inlineBreak => o.inline_break
  | .selfClosingTag => o.self_closing_tag
  | .filtersField => o.filters

/-- Field access on a resolved profile (used for the defaults record). -/
def OutputProfile.getF (p : OutputProfile) : PField → JSVal
  | .tagCase => p.tag_case
  | .attrCase => p.attr_case
  | .attrQuotes => p.attr_quotes
  | .tagNl => p.tag_nl
  | .placeCursor => p.place_cursor
  | .indentField => p.indent
  | .inlineBreak => p.inline_break
  | .selfClosingTag => p.self_closing_tag
  | .filtersField => p.filters

/-! ### Helper lemmas -/

/-- Reading a key right after writing it yields the written entry. -/
theorem objGet_objSet (k : String) (v : Entry) (l : List (String × Entry)) :
    objGet k (objSet k v l) = some v := by
  induction l with
  | nil => simp [objGet, objSet]
  | cons hd tl ih =>
      obtain ⟨k2, v2⟩ := hd
      by_cases h : k2 = k
      · simp [objGet, objSet, h]
      · simp [objGet, objSet, h, ih]

/-- With no syntax argument, a string name whose lowercased form is stored in
the registry resolves to the stored instance and leaves the state unchanged. -/
theorem get_found (res : String → Option String) (s : String) (st : PState) (e : Entry)
    (h : objGet (jsToLowerCase s) st.profiles = some e) :
    get res (.str s) none st = (.ok (.registered e), st) := by
  simp [get, resolveSynOverride, h]

/-! ### Claim theorems -/

/-- C1, counterexample: the case value "UPPER" is neither the string "lower"
nor the string "upper", yet `stringCase "a" "UPPER"` returns "A", not "a"
unchanged — the switch compares the LOWERCASED case value, so mixed-case
spellings of upper and lower do transform the string. -/
theorem stringCase_case_literal_cex :
    JSVal.vstr "UPPER" ≠ .vstr "lower" ∧ JSVal.vstr "UPPER" ≠ .vstr "upper" ∧
      stringCase "a" (.vstr "UPPER") = "A" ∧ ("A" : String) ≠ "a" := by
  refine ⟨by decide, by decide, rfl, by decide⟩

/-- C1, amended: for every string `s` and every case value `c` whose
normalisation `String(c || "").toLowerCase()` is neither "lower" nor "upper"
(this includes "leave", the empty string and undefined), `stringCase s c`
returns `s` unchanged. -/
theorem stringCase_unrecognized_id (s : String) (c : JSVal)
    (h1 : normalizedCaseValue c ≠ "lower") (h2 : normalizedCaseValue c ≠ "upper") :
    stringCase s c = s := by
  simp [stringCase, h1, h2]

/-- C1, witness: the amended theorem applied at s = "Hi", c = "leave". -/
theorem stringCase_unrecognized_id_witness :
    normalizedCaseValue (.vstr "leave") ≠ "lower" ∧
      normalizedCaseValue (.vstr "leave") ≠ "upper" ∧
      stringCase "Hi" (.vstr "leave") = "Hi" :=
  ⟨by decide, by decide, stringCase_unrecognized_id "Hi" (.vstr "leave") (by decide) (by decide)⟩

/-- C9: for every string `s`, `stringCase s "lower"` is `s` lowercased and
`stringCase s "upper"` is `s` uppercased. -/
theorem stringCase_lower_upper (s : String) :
    stringCase s (.vstr "lower") = jsToLowerCase s ∧
      stringCase s (.vstr "upper") = jsToUpperCase s :=
  ⟨rfl, rfl⟩

/-- C4: for every profile, `selfClosing()` returns " /" exactly when
`self_closing_tag` is the string "xhtml", returns "/" exactly when it is the
boolean true, and returns "" for every other value (including boolean false
and any unrecognised value). -/
theorem selfClosing_cases (p : OutputProfile) :
    (p.selfClosing = " /" ↔ p.self_closing_tag = .vstr "xhtml")
    ∧ (p.selfClosing = "/" ↔ p.self_closing_tag = .vbool true)
    ∧ (p.self_closing_tag ≠ .vstr "xhtml" → p.self_closing_tag ≠ .vbool true →
        p.selfClosing = "") := by
  cases hv : p.self_closing_tag with
  | vstr s =>
      by_cases h : s = "xhtml"
      · subst h
        simp [OutputProfile.selfClosing, looseEqStr, hv]
      · simp [OutputProfile.selfClosing, looseEqStr, hv, h]
  | vbool b =>
      cases b <;> simp [OutputProfile.selfClosing, looseEqStr, hv]
  | vnum n => simp [OutputProfile.selfClosing, looseEqStr, hv]
  | vundef => simp [OutputProfile.selfClosing, looseEqStr, hv]
  | vnull => simp [OutputProfile.selfClosing, looseEqStr, hv]

/-- C4, witness: the third clause applied to a profile whose
`self_closing_tag` is boolean false. -/
theorem selfClosing_cases_witness :
    (mkOutputProfile { self_closing_tag := some (.vbool false) }).selfClosing = "" :=
  (selfClosing_cases (mkOutputProfile { self_closing_tag := some (.vbool false) })).2.2
    (by decide) (by decide)

/-- C8: the deprecated free functions are pure functions independent of the
registry and mirror the Profile methods: `quote param` equals
`attributeQuote()` of a profile whose `attr_quotes` is `param` (single quote
exactly when `param == "single"`, double quote otherwise), and the deprecated
`selfClosing param` equals `selfClosing()` of a profile whose
`self_closing_tag` is `param` (" /" when `param == "xhtml"`, "/" when
`param` is strictly boolean true, "" otherwise). -/
theorem deprecated_free_mirror (param : JSVal) :
    quote param = (mkOutputProfile { attr_quotes := some param }).attributeQuote
    ∧ (looseEqStr param "single" = true → quote param = "\x27")
    ∧ (looseEqStr param "single" = false → quote param = "\"")
    ∧ selfClosingLegacy param = (mkOutputProfile { self_closing_tag := some param }).selfClosing
    ∧ (looseEqStr param "xhtml" = true → selfClosingLegacy param = " /")
    ∧ (param = .vbool true → selfClosingLegacy param = "/")
    ∧ (looseEqStr param "xhtml" = false → param ≠ .vbool true →
        selfClosingLegacy param = "") := by
  refine ⟨rfl, ?_, ?_, rfl, ?_, ?_, ?_⟩
  · intro h; simp [quote, h]
  · intro h; simp [quote, h]
  · intro h; simp [selfClosingLegacy, h]
  · intro h; subst h; decide
  · intro h1 h2; simp [selfClosingLegacy, h1, h2]

/-- C8, witness: the theorem applied at param = "single" (clause for the
single quote) and at param = true (clause for "/"). -/
theorem deprecated_free_mirror_witness :
    quote (.vstr "single") = "\x27" ∧ selfClosingLegacy (.vbool true) = "/" :=
  ⟨(deprecated_free_mirror (.vstr "single")).2.1 (by decide),
   (deprecated_free_mirror (.vbool true)).2.2.2.2.2.1 (by decide)⟩

/-- C3, code bug: the spec promises that no exported operation raises, but
`get` applied to a non-empty string that names no registered profile reaches
`name && (tag_case in name)` with `name` a primitive string, and the
JavaScript `in` operator throws a TypeError there instead of falling back to
the plain profile. -/
theorem get_unknown_name_throws :
    get noResources (.str "nonexistent-name") none initState
      = (.error "TypeError", initState) := rfl

/-- C5, code bug: after `remove("xhtml")` the name "xhtml" is no longer
registered, so `get("xhtml")` takes the same throwing path and raises a
TypeError instead of returning the plain fallback — even though the plain
profile is still present in the registry at that point. -/
theorem get_after_remove_throws :
    (get noResources (.str "xhtml") none (remove (some "xhtml") initState)).1
        = .error "TypeError"
    ∧ (objGet "plain" (remove (some "xhtml") initState).profiles).isSome = true :=
  ⟨rfl, rfl⟩

/-- C2, code bug: `get` on an inline options object carrying `tag_case`
"upper" does return the in-place-completed record with `tag_case` still
"upper" and leaves the registry untouched, but the final part of the claim
fails: a subsequent `get("upper")` does not resolve to the plain fallback —
"upper" is an unregistered primitive string, so the `in` operator throws a
TypeError. -/
theorem get_inline_options_eval :
    get noResources (.obj ⟨7, { tag_case := some (.vstr "upper") }⟩) none initState
      = (.ok (.inlineRec ⟨7,
          { tag_case := some (.vstr "upper"),
            attr_case := some (.vstr "lower"),
            attr_quotes := some (.vstr "double"),
            tag_nl := some (.vstr "decide"),
            place_cursor := some (.vbool true),
            indent := some (.vbool true),
            inline_break := some (.vnum 3),
            self_closing_tag := some (.vstr "xhtml"),
            filters := some (.vstr "") }⟩), initState)
    ∧ get noResources (.str "upper") none initState = (.error "TypeError", initState) :=
  ⟨rfl, rfl⟩

/-- C6: `get` is case-insensitive over registered names. For any two strings
with the same lowercased form, if that lowercased key is stored in the
registry then `get` on either spelling returns the same stored instance
(keys are stored lowercased by `createProfile` and lookups lowercase the
queried name). -/
theorem get_case_insensitive (res : String → Option String) (a b : String)
    (st : PState) (e : Entry)
    (hab : jsToLowerCase a = jsToLowerCase b)
    (hb : objGet (jsToLowerCase b) st.profiles = some e) :
    get res (.str a) none st = (.ok (.registered e), st)
    ∧ get res (.str b) none st = (.ok (.registered e), st) := by
  refine ⟨get_found res a st e ?_, get_found res b st e hb⟩
  rw [hab]; exact hb

/-- C6, witness: "XHTML" and "xhtml" both resolve to the stored built-in
xhtml entry (allocation id 0, all-default profile). -/
theorem get_case_insensitive_witness :
    jsToLowerCase "XHTML" = jsToLowerCase "xhtml"
    ∧ objGet (jsToLowerCase "xhtml") initState.profiles = some ⟨0, defaultProfile⟩
    ∧ get noResources (.str "XHTML") none initState
        = (.ok (.registered ⟨0, defaultProfile⟩), initState)
    ∧ get noResources (.str "xhtml") none initState
        = (.ok (.registered ⟨0, defaultProfile⟩), initState) :=
  ⟨rfl, rfl,
   (get_case_insensitive noResources "XHTML" "xhtml" initState ⟨0, defaultProfile⟩ rfl rfl).1,
   (get_case_insensitive noResources "XHTML" "xhtml" initState ⟨0, defaultProfile⟩ rfl rfl).2⟩

/-- C7: the two-argument `create` stores the new instance under the
lowercased name, and a subsequent `get` of that name returns exactly that
instance; creating again under the same name overwrites, so `get` then
returns the second, distinct instance. The stored profile is the options
merged over the defaults; concretely, after
`create("custom", self_closing_tag = true)` the profile got back under
"custom" answers "/" to `selfClosing()`. -/
theorem create_get_roundtrip (res : String → Option String) (name : String)
    (o1 o2 : Options) (st : PState) :
    get res (.str name) none (create2 name o1 st).2
      = (.ok (.registered (create2 name o1 st).1), (create2 name o1 st).2)
    ∧ get res (.str name) none (create2 name o2 (create2 name o1 st).2).2
      = (.ok (.registered (create2 name o2 (create2 name o1 st).2).1),
         (create2 name o2 (create2 name o1 st).2).2)
    ∧ (create2 name o2 (create2 name o1 st).2).1.id ≠ (create2 name o1 st).1.id
    ∧ (create2 name o1 st).1.profile = mkOutputProfile o1
    ∧ (create2 "custom" { self_closing_tag := some (.vbool true) } initState).1.profile.selfClosing
        = "/" := by
  refine ⟨?_, ?_, ?_, rfl, rfl⟩
  · exact get_found res name _ _ (by simp [create2, createProfile, objGet_objSet])
  · exact get_found res name _ _ (by simp [create2, createProfile, objGet_objSet])
  · simp [create2, createProfile]

/-- C10: the one-argument `create` completes the caller-supplied options
record in place — the result has the same object identity as the argument,
every field the caller set (to a non-null, non-undefined value) is kept,
every field the caller lacked is filled with the default, and afterwards all
nine fields are present. The result is a bare options record without the
accessor methods (it is never passed through the OutputProfile constructor),
and `get` on an options object carrying a `tag_case` property returns
exactly this completed record without touching the registry. -/
theorem create_one_arg_in_place (o : OptionsObj) :
    (create1 o).id = o.id
    ∧ (∀ f : PField, o.fields.getF f = none →
        (create1 o).fields.getF f = some (defaultProfile.getF f))
    ∧ (∀ (f : PField) (v : JSVal), o.fields.getF f = some v → v ≠ .vundef → v ≠ .vnull →
        (create1 o).fields.getF f = some v)
    ∧ (∀ f : PField, ((create1 o).fields.getF f).isSome = true)
    ∧ hasAccessorMethods (.inlineRec (create1 o)) = false
    ∧ (∀ (res : String → Option String) (st : PState), (o.fields.tag_case).isSome = true →
        get res (.obj o) none st = (.ok (.inlineRec (create1 o)), st)) := by
  refine ⟨rfl, ?_, ?_, ?_, rfl, ?_⟩
  · intro f h
    cases f <;> simp_all [create1, defaultsField, Options.getF, OutputProfile.getF]
  · intro f v h hu hn
    cases f <;> simp_all [create1, defaultsField, Options.getF, OutputProfile.getF]
  · intro f
    cases f <;> simp [create1, Options.getF]
  · intro res st h
    simp [get, resolveSynOverride, h]

/-- C10, witness: a record carrying only `tag_case` gets its `attr_case`
filled with the default, and `get` on it returns the completed record. -/
theorem create_one_arg_in_place_witness :
    (create1 ⟨3, { tag_case := some (.vstr "upper") }⟩).fields.getF .attrCase
        = some (.vstr "lower")
    ∧ get noResources (.obj ⟨3, { tag_case := some (.vstr "upper") }⟩) none initState
        = (.ok (.inlineRec (create1 ⟨3, { tag_case := some (.vstr "upper") }⟩)), initState) :=
  ⟨(create_one_arg_in_place ⟨3, { tag_case := some (.vstr "upper") }⟩).2.1 .attrCase rfl,
   (create_one_arg_in_place ⟨3, { tag_case := some (.vstr "upper") }⟩).2.2.2.2.2
     noResources initState rfl⟩

end Profile
